import Mathlib

/-!
Shallow embedding of src/simple-image-modal.js (class SimpleImageModal).

Numbers that are JS floats are modelled as rationals; times are in
milliseconds.  DOM style state that the widget reads back or that the
spec observes (display, opacity, body overflow, caption visibility) is
carried explicitly in the state record.  The two deferred callbacks
(the 10 ms fade-in tick scheduled by open, and the animationDuration
fade-out timer scheduled by close) are modelled as a pending-timer
list; advancing the clock fires all due timers in scheduled-time order
(stable on ties), as the browser event loop does.
-/

namespace SimpleImageModal

/-- Mirrors the option bag built in the constructor (source lines 45-59). -/
structure ModalOptions where
  selector : String
  excludeSelector : Option String
  modalClass : String
  modalContentClass : String
  closeButtonClass : String
  captionClass : String
  animationDuration : ℚ
  closeOnClick : Bool
  closeOnEsc : Bool
  showCaption : Bool
  enableZoom : Bool
  maxZoom : ℚ
  deriving Repr, DecidableEq

/-- The defaults spread first in the constructor (source lines 45-57). -/
def defaultOptions : ModalOptions where
  selector := "img"
  excludeSelector := none
  modalClass := "simple-image-modal"
  modalContentClass := "simple-image-modal-content"
  closeButtonClass := "simple-image-modal-close"
  captionClass := "simple-image-modal-caption"
  animationDuration := 300
  closeOnClick := true
  closeOnEsc := true
  showCaption := true
  enableZoom := true
  maxZoom := 3

/-- A JS options argument: per-key overrides, absent keys left out.
Spreading `...options` over the defaults keeps a key exactly when the
override has it (last write wins per key). -/
structure OptionsPatch where
  selector : Option String := none
  excludeSelector : Option (Option String) := none
  modalClass : Option String := none
  modalContentClass : Option String := none
  closeButtonClass : Option String := none
  captionClass : Option String := none
  animationDuration : Option ℚ := none
  closeOnClick : Option Bool := none
  closeOnEsc : Option Bool := none
  showCaption : Option Bool := none
  enableZoom : Option Bool := none
  maxZoom : Option ℚ := none

/-- Shallow merge `{...o, ...p}` as in the constructor and
`updateOptions` (source lines 58, 381). -/
def mergeOptions (o : ModalOptions) (p : OptionsPatch) : ModalOptions where
  selector := p.selector.getD o.selector
  excludeSelector := p.excludeSelector.getD o.excludeSelector
  modalClass := p.modalClass.getD o.modalClass
  modalContentClass := p.modalContentClass.getD o.modalContentClass
  closeButtonClass := p.closeButtonClass.getD o.closeButtonClass
  captionClass := p.captionClass.getD o.captionClass
  animationDuration := p.animationDuration.getD o.animationDuration
  closeOnClick := p.closeOnClick.getD o.closeOnClick
  closeOnEsc := p.closeOnEsc.getD o.closeOnEsc
  showCaption := p.showCaption.getD o.showCaption
  enableZoom := p.enableZoom.getD o.enableZoom
  maxZoom := p.maxZoom.getD o.maxZoom

/-- An image element as the widget reads it: `src`, plus the `alt` and
`title` attributes (`getAttribute` yields null when absent). -/
structure ImageRef where
  src : String
  alt : Option String
  title : Option String
  deriving Repr, DecidableEq

/-- JS `a || b` on strings: the empty string is falsy. -/
def strOr (a b : String) : String := if a = "" then b else a

/-- The two kinds of deferred callback the widget schedules:
the 10 ms opacity fade-in from `open` (source lines 290-292) and the
hide-restore-reset callback from `close` (source lines 307-311). -/
inductive TimerAction where
  | fadeIn
  | hideClose
  deriving Repr, DecidableEq, BEq

/-- The instance state: the option bag, whether the zoom/drag handlers
were registered (bindEvents runs once, at construction, and registers
them only when `enableZoom` was then true — source lines 221-255), the
DOM style bits the code reads or the spec observes, and the transform
fields (source lines 74-89). -/
structure ModalState where
  options : ModalOptions
  zoomBound : Bool
  displayStyle : String
  opacity : ℚ
  overflowHidden : Bool
  imgSrc : String
  captionText : String
  captionShown : Bool
  scale : ℚ
  isDragging : Bool
  startX : ℚ
  startY : ℚ
  translateX : ℚ
  translateY : ℚ
  timers : List (ℚ × TimerAction)
  deriving Repr, DecidableEq

/-- Constructor state: merged options, modal created with
`display: none; opacity: 0`, transform fields at their initial values
(source lines 39-92, 109-124). -/
def initState (p : OptionsPatch) : ModalState :=
  let o := mergeOptions defaultOptions p
  { options := o
    zoomBound := o.enableZoom
    displayStyle := "none"
    opacity := 0
    overflowHidden := false
    imgSrc := ""
    captionText := ""
    captionShown := true
    scale := 1
    isDragging := false
    startX := 0
    startY := 0
    translateX := 0
    translateY := 0
    timers := [] }

/-- `resetZoom` (source lines 353-358). -/
def resetZoom (s : ModalState) : ModalState :=
  { s with scale := 1, translateX := 0, translateY := 0 }

/-- `Math.min` on two numbers. -/
def jsMin (a b : ℚ) : ℚ := if a ≤ b then a else b

/-- `Math.max` on two numbers. -/
def jsMax (a b : ℚ) : ℚ := if a ≤ b then b else a

theorem jsMin_eq_min (a b : ℚ) : jsMin a b = min a b := by
  rw [jsMin, min_def]

theorem jsMax_eq_max (a b : ℚ) : jsMax a b = max a b := by
  rw [jsMax, max_def]

/-- The clamp computed by `zoom`:
`Math.min(maxZoom, Math.max(1, scale + delta))` (source line 336). -/
def clampScale (s : ModalState) (delta : ℚ) : ℚ :=
  jsMin s.options.maxZoom (jsMax 1 (s.scale + delta))

/-- `zoom(delta)` (source lines 333-344): early return when zoom is
disabled, clamp the new scale, and snap the translation back to the
origin when the clamped scale is exactly 1. -/
def zoom (delta : ℚ) (s : ModalState) : ModalState :=
  if s.options.enableZoom then
    if clampScale s delta = 1 then
      { s with scale := clampScale s delta, translateX := 0, translateY := 0 }
    else
      { s with scale := clampScale s delta }
  else s

/-- Body of the mousedown handler (source lines 228-235): when
`scale > 1`, record the drag anchor and start dragging. -/
def beginDrag (x y : ℚ) (s : ModalState) : ModalState :=
  if 1 < s.scale then
    { s with isDragging := true, startX := x - s.translateX, startY := y - s.translateY }
  else s

/-- Body of the mousemove handler (source lines 237-243): while
dragging at `scale > 1`, move the translation relative to the anchor. -/
def continueDrag (x y : ℚ) (s : ModalState) : ModalState :=
  if s.isDragging then
    if 1 < s.scale then
      { s with translateX := x - s.startX, translateY := y - s.startY }
    else s
  else s

/-- Body of the mouseup handler (source lines 245-250). -/
def endDrag (s : ModalState) : ModalState :=
  if s.isDragging then { s with isDragging := false } else s

/-- `open(img)` (source lines 278-295): record src and caption, show
the surface (`display: flex`), schedule the fade-in tick 10 ms out,
and suspend page scrolling.  `t` is the current clock time. -/
def openModal (img : ImageRef) (t : ℚ) (s : ModalState) : ModalState :=
  let caption := strOr (img.alt.getD "") (img.title.getD "")
  let s1 :=
    if s.options.showCaption then
      { s with imgSrc := img.src, captionText := caption, captionShown := caption != "" }
    else
      { s with imgSrc := img.src }
  { s1 with
      displayStyle := "flex"
      timers := s1.timers ++ [(t + 10, TimerAction.fadeIn)]
      overflowHidden := true }

/-- `close()` (source lines 304-312): fade out now, and schedule the
hide/restore/reset callback `animationDuration` ms out. -/
def closeModal (t : ℚ) (s : ModalState) : ModalState :=
  { s with
      opacity := 0
      timers := s.timers ++ [(t + s.options.animationDuration, TimerAction.hideClose)] }

/-- `isOpen()` (source lines 323-325): the surface is in its visible
layout state. -/
def isOpen (s : ModalState) : Bool :=
  s.displayStyle == "flex"

/-- `updateOptions(options)` (source lines 380-382): shallow merge.
Event handler registration is not revisited. -/
def updateOptions (p : OptionsPatch) (s : ModalState) : ModalState :=
  { s with options := mergeOptions s.options p }

/-- Effect of a fired timer callback on the state. -/
def runTimerAction : TimerAction → ModalState → ModalState
  | TimerAction.fadeIn, s => { s with opacity := 1 }
  | TimerAction.hideClose, s =>
      resetZoom { s with displayStyle := "none", overflowHidden := false }

/-- Insert a timer into a list sorted by fire time, before any timer
with a strictly later time (stable: existing ties stay first). -/
def insertTimer (p : ℚ × TimerAction) :
    List (ℚ × TimerAction) → List (ℚ × TimerAction)
  | [] => [p]
  | q :: qs => if p.1 ≤ q.1 then p :: q :: qs else q :: insertTimer p qs

/-- Stable sort of timers by fire time: earlier-scheduled timers fire
first on ties, as in the browser event loop. -/
def sortTimers : List (ℚ × TimerAction) → List (ℚ × TimerAction)
  | [] => []
  | p :: ps => insertTimer p (sortTimers ps)

/-- Fire a list of timer callbacks in order. -/
def fireAll (l : List (ℚ × TimerAction)) (s : ModalState) : ModalState :=
  l.foldl (fun st p => runTimerAction p.2 st) s

/-- Advance the clock to time `u`: all timers due at or before `u`
fire, in scheduled-time order; the rest stay pending. -/
def advanceTo (u : ℚ) (s : ModalState) : ModalState :=
  let due := sortTimers (s.timers.filter (fun p => decide (p.1 ≤ u)))
  let rest := s.timers.filter (fun p => decide (u < p.1))
  fireAll due { s with timers := rest }

/-- Wheel handler (source lines 222-226): registered only when zoom was
enabled at construction; direction-only fixed-magnitude delta. -/
def wheelEvent (deltaY : ℚ) (s : ModalState) : ModalState :=
  if s.zoomBound then zoom (if 0 < deltaY then -(1/10) else 1/10) s else s

/-- Mousedown event as seen by the instance: the handler exists only
when zoom was enabled at construction. -/
def mousedownEvent (x y : ℚ) (s : ModalState) : ModalState :=
  if s.zoomBound then beginDrag x y s else s

/-- Mousemove event as seen by the instance. -/
def mousemoveEvent (x y : ℚ) (s : ModalState) : ModalState :=
  if s.zoomBound then continueDrag x y s else s

/-- Mouseup event as seen by the instance. -/
def mouseupEvent (s : ModalState) : ModalState :=
  if s.zoomBound then endDrag s else s

/-- Double-click event (source lines 252-254): the handler, when
registered, calls `resetZoom` unconditionally. -/
def dblclickEvent (s : ModalState) : ModalState :=
  if s.zoomBound then resetZoom s else s

/-- The Transform Engine operations, for reachability statements. -/
inductive EngineOp where
  | zoomBy (delta : ℚ)
  | dragStart (x y : ℚ)
  | dragMove (x y : ℚ)
  | dragEnd
  | reset
  deriving Repr, DecidableEq

/-- Apply one Transform Engine operation. -/
def applyOp : EngineOp → ModalState → ModalState
  | EngineOp.zoomBy d, s => zoom d s
  | EngineOp.dragStart x y, s => beginDrag x y s
  | EngineOp.dragMove x y, s => continueDrag x y s
  | EngineOp.dragEnd, s => endDrag s
  | EngineOp.reset, s => resetZoom s

/-- Input events reaching a constructed instance, for statements about
what handlers were bound. -/
inductive ZEvent where
  | wheel (deltaY : ℚ)
  | mousedown (x y : ℚ)
  | mousemove (x y : ℚ)
  | mouseup
  | dblclick
  | updateOpts (p : OptionsPatch)

/-- Dispatch one input event. -/
def stepZ : ZEvent → ModalState → ModalState
  | ZEvent.wheel d, s => wheelEvent d s
  | ZEvent.mousedown x y, s => mousedownEvent x y s
  | ZEvent.mousemove x y, s => mousemoveEvent x y s
  | ZEvent.mouseup, s => mouseupEvent s
  | ZEvent.dblclick, s => dblclickEvent s
  | ZEvent.updateOpts p, s => updateOptions p s

/-- The `{enableZoom: false}` argument of the round-trip scenario. -/
def disableZoomPatch : OptionsPatch := { enableZoom := some false }

/-- The empty options argument `{}`. -/
def noPatch : OptionsPatch := {}

/-! ### Frame lemmas for the Transform Engine operations -/

theorem zoom_options (d : ℚ) (s : ModalState) : (zoom d s).options = s.options := by
  unfold zoom
  split
  · split <;> rfl
  · rfl

theorem zoom_isDragging (d : ℚ) (s : ModalState) : (zoom d s).isDragging = s.isDragging := by
  unfold zoom
  split
  · split <;> rfl
  · rfl

theorem clampScale_ge_one (s : ModalState) (d : ℚ) (h : 1 ≤ s.options.maxZoom) :
    1 ≤ clampScale s d := by
  unfold clampScale
  rw [jsMin_eq_min, jsMax_eq_max]
  exact le_min h (le_max_left 1 _)

theorem clampScale_le_max (s : ModalState) (d : ℚ) :
    clampScale s d ≤ s.options.maxZoom := by
  unfold clampScale
  rw [jsMin_eq_min]
  exact min_le_left _ _

theorem zoom_scale_bounds (d : ℚ) (s : ModalState) (hM : 1 ≤ s.options.maxZoom)
    (h1 : 1 ≤ s.scale) (h2 : s.scale ≤ s.options.maxZoom) :
    1 ≤ (zoom d s).scale ∧ (zoom d s).scale ≤ s.options.maxZoom := by
  unfold zoom
  split
  · split
    · exact ⟨clampScale_ge_one s d hM, clampScale_le_max s d⟩
    · exact ⟨clampScale_ge_one s d hM, clampScale_le_max s d⟩
  · exact ⟨h1, h2⟩

theorem zoomFold_bounds (ds : List ℚ) : ∀ s : ModalState, 1 ≤ s.options.maxZoom →
    1 ≤ s.scale → s.scale ≤ s.options.maxZoom →
    1 ≤ (ds.foldl (fun st d => zoom d st) s).scale ∧
    (ds.foldl (fun st d => zoom d st) s).scale ≤ s.options.maxZoom := by
  induction ds with
  | nil => exact fun s _ h1 h2 => ⟨h1, h2⟩
  | cons d rest ih =>
    intro s hM h1 h2
    have hb := zoom_scale_bounds d s hM h1 h2
    have hopt := zoom_options d s
    have := ih (zoom d s) (by rw [hopt]; exact hM) hb.1 (by rw [hopt]; exact hb.2)
    simpa [List.foldl, hopt] using this

/-- C2: starting from `scale = 1`, any sequence of `zoom` calls keeps
`1 ≤ scale ≤ maxZoom`, provided the configuration has `maxZoom ≥ 1`. -/
theorem C2_zoom_bounded (s : ModalState) (ds : List ℚ)
    (hM : 1 ≤ s.options.maxZoom) (h1 : s.scale = 1) :
    1 ≤ (ds.foldl (fun st d => zoom d st) s).scale ∧
    (ds.foldl (fun st d => zoom d st) s).scale ≤ s.options.maxZoom :=
  zoomFold_bounds ds s hM (by rw [h1]) (by rw [h1]; exact hM)

/-- Witness for C2: the spec scenario, `{maxZoom: 3}` (the default) and
25 wheel-up deltas of `0.1`; the scale stays in `[1, 3]`. -/
theorem C2_witness :
    (1 ≤ (initState noPatch).options.maxZoom ∧ (initState noPatch).scale = 1) ∧
    (1 ≤ ((List.replicate 25 ((1:ℚ)/10)).foldl (fun st d => zoom d st) (initState noPatch)).scale ∧
      ((List.replicate 25 ((1:ℚ)/10)).foldl (fun st d => zoom d st)
        (initState noPatch)).scale ≤ (initState noPatch).options.maxZoom) :=
  ⟨⟨by norm_num [initState, mergeOptions, defaultOptions, noPatch], rfl⟩,
    C2_zoom_bounded (initState noPatch) (List.replicate 25 ((1:ℚ)/10))
      (by norm_num [initState, mergeOptions, defaultOptions, noPatch]) rfl⟩

/-! ### The centering invariant -/

theorem applyOp_centered (op : EngineOp) (s : ModalState)
    (h : s.scale = 1 → s.translateX = 0 ∧ s.translateY = 0) :
    (applyOp op s).scale = 1 →
    (applyOp op s).translateX = 0 ∧ (applyOp op s).translateY = 0 := by
  cases op with
  | zoomBy d =>
    dsimp only [applyOp]
    unfold zoom
    split
    · split
      · exact fun _ => ⟨rfl, rfl⟩
      · next hne => exact fun hsc => absurd hsc hne
    · exact h
  | dragStart x y =>
    dsimp only [applyOp]
    unfold beginDrag
    split
    · exact h
    · exact h
  | dragMove x y =>
    dsimp only [applyOp]
    unfold continueDrag
    split
    · split
      · next hgt => exact fun hsc => absurd hsc (ne_of_gt hgt)
      · exact h
    · exact h
  | dragEnd =>
    dsimp only [applyOp]
    unfold endDrag
    split
    · exact h
    · exact h
  | reset => exact fun _ => ⟨rfl, rfl⟩

theorem foldOps_centered (ops : List EngineOp) : ∀ s : ModalState,
    (s.scale = 1 → s.translateX = 0 ∧ s.translateY = 0) →
    (ops.foldl (fun st op => applyOp op st) s).scale = 1 →
    (ops.foldl (fun st op => applyOp op st) s).translateX = 0 ∧
    (ops.foldl (fun st op => applyOp op st) s).translateY = 0 := by
  induction ops with
  | nil => exact fun s h => h
  | cons op rest ih =>
    intro s h
    simpa [List.foldl] using ih (applyOp op s) (applyOp_centered op s h)

/-- C3: in every state reachable from a fresh instance by any
interleaving of the Transform Engine operations, `scale = 1` forces
`translateX = translateY = 0`. -/
theorem C3_scale_one_centered (p : OptionsPatch) (ops : List EngineOp)
    (h : (ops.foldl (fun st op => applyOp op st) (initState p)).scale = 1) :
    (ops.foldl (fun st op => applyOp op st) (initState p)).translateX = 0 ∧
    (ops.foldl (fun st op => applyOp op st) (initState p)).translateY = 0 :=
  foldOps_centered ops (initState p) (fun _ => ⟨rfl, rfl⟩) h

/-- Witness for C3: zoom in, drag the image away from the origin, then
zoom back down to 1; the translation snaps back to the origin. -/
theorem C3_witness :
    ([EngineOp.zoomBy 1, EngineOp.dragStart 5 5, EngineOp.dragMove 9 9,
        EngineOp.zoomBy (-1)].foldl (fun st op => applyOp op st) (initState noPatch)).translateX = 0 ∧
    ([EngineOp.zoomBy 1, EngineOp.dragStart 5 5, EngineOp.dragMove 9 9,
        EngineOp.zoomBy (-1)].foldl (fun st op => applyOp op st) (initState noPatch)).translateY = 0 :=
  C3_scale_one_centered noPatch
    [EngineOp.zoomBy 1, EngineOp.dragStart 5 5, EngineOp.dragMove 9 9, EngineOp.zoomBy (-1)]
    (by norm_num [List.foldl, applyOp, zoom, beginDrag, continueDrag, clampScale,
      jsMin, jsMax, initState, mergeOptions, defaultOptions, noPatch])

/-- C10: `zoom` never touches `isDragging`; it zeroes the translation
exactly when the resulting scale is 1 and leaves it unchanged
otherwise.  The hypothesis is the reachable-state invariant of C3. -/
theorem C10_zoom_frame (s : ModalState) (d : ℚ)
    (h : s.scale = 1 → s.translateX = 0 ∧ s.translateY = 0) :
    (zoom d s).isDragging = s.isDragging ∧
    ((zoom d s).scale = 1 → (zoom d s).translateX = 0 ∧ (zoom d s).translateY = 0) ∧
    ((zoom d s).scale ≠ 1 → (zoom d s).translateX = s.translateX ∧
      (zoom d s).translateY = s.translateY) := by
  refine ⟨zoom_isDragging d s, ?_, ?_⟩
  · exact applyOp_centered (EngineOp.zoomBy d) s h
  · unfold zoom
    split
    · split
      · next heq => exact fun hne => absurd heq hne
      · exact fun _ => ⟨rfl, rfl⟩
    · exact fun _ => ⟨rfl, rfl⟩

/-- Witness for C10 at the fresh state with a delta of one half. -/
theorem C10_witness :
    (zoom (1/2) (initState noPatch)).isDragging = (initState noPatch).isDragging ∧
    ((zoom (1/2) (initState noPatch)).scale = 1 →
      (zoom (1/2) (initState noPatch)).translateX = 0 ∧
      (zoom (1/2) (initState noPatch)).translateY = 0) ∧
    ((zoom (1/2) (initState noPatch)).scale ≠ 1 →
      (zoom (1/2) (initState noPatch)).translateX = (initState noPatch).translateX ∧
      (zoom (1/2) (initState noPatch)).translateY = (initState noPatch).translateY) :=
  C10_zoom_frame (initState noPatch) (1/2) (fun _ => ⟨rfl, rfl⟩)

/-! ### open and the transform state -/

theorem openModal_options (img : ImageRef) (t : ℚ) (s : ModalState) :
    (openModal img t s).options = s.options := by
  unfold openModal
  dsimp only
  split <;> rfl

/-- C1 (amended): `open(image)` does not touch the Transform Engine at
all; `scale`, `translateX` and `translateY` are exactly what they were
before the call.  The engine is reset only by `resetZoom` (double-click)
and by the timer `close()` schedules. -/
theorem C1_open_preserves_transform (img : ImageRef) (t : ℚ) (s : ModalState) :
    (openModal img t s).scale = s.scale ∧
    (openModal img t s).translateX = s.translateX ∧
    (openModal img t s).translateY = s.translateY := by
  unfold openModal
  dsimp only
  split <;> exact ⟨rfl, rfl, rfl⟩

/-- C1 is false on the code: open the modal from a state zoomed to 2 —
immediately after `open` returns, the scale is still 2, not 1. -/
theorem C1_counterexample :
    (openModal ⟨"a.png", none, none⟩ 0 (zoom 1 (initState noPatch))).scale ≠ 1 := by
  norm_num [openModal, strOr, zoom, clampScale, jsMin, jsMax, initState,
    mergeOptions, defaultOptions, noPatch]

/-- C5 (amended): when the instance was constructed with zoom enabled
(so the double-click handler was registered), a double-click always
resets the transform to identity, whatever the current scale and
whatever the current `enableZoom` option value. -/
theorem C5_dblclick_resets (s : ModalState) (h : s.zoomBound = true) :
    (dblclickEvent s).scale = 1 ∧
    (dblclickEvent s).translateX = 0 ∧ (dblclickEvent s).translateY = 0 := by
  unfold dblclickEvent
  simp only [h]
  exact ⟨rfl, rfl, rfl⟩

/-- Witness for C5 on a fresh default instance (zoom enabled). -/
theorem C5_witness :
    (initState noPatch).zoomBound = true ∧
    ((dblclickEvent (initState noPatch)).scale = 1 ∧
      (dblclickEvent (initState noPatch)).translateX = 0 ∧
      (dblclickEvent (initState noPatch)).translateY = 0) :=
  ⟨rfl, C5_dblclick_resets (initState noPatch) rfl⟩

/-- C5 is false as stated for an instance constructed with
`enableZoom: false`: no double-click handler was registered, so after
the option is switched back on and the scale is driven to 2, a
double-click does not restore `scale = 1`. -/
theorem C5_counterexample :
    (dblclickEvent (zoom 1 (updateOptions { enableZoom := some true }
      (initState disableZoomPatch)))).scale ≠ 1 := by
  norm_num [dblclickEvent, zoom, clampScale, jsMin, jsMax, updateOptions,
    initState, mergeOptions, defaultOptions, disableZoomPatch]

/-- C6: from any state with `scale > 1`, `beginDrag(x0, y0)` then
`continueDrag(x, y)` lands the translation at the pointer offset from
the anchor recorded at `beginDrag` time. -/
theorem C6_drag_anchor (s : ModalState) (x0 y0 x y : ℚ) (h : 1 < s.scale) :
    (continueDrag x y (beginDrag x0 y0 s)).translateX = x - (x0 - s.translateX) ∧
    (continueDrag x y (beginDrag x0 y0 s)).translateY = y - (y0 - s.translateY) := by
  unfold beginDrag
  rw [if_pos h]
  unfold continueDrag
  simp only [if_pos h]
  exact ⟨rfl, rfl⟩

/-- Witness for C6: zoom the fresh instance to 2, press at (5, 5) and
move to (9, 9). -/
theorem C6_witness :
    1 < (zoom 1 (initState noPatch)).scale ∧
    ((continueDrag 9 9 (beginDrag 5 5 (zoom 1 (initState noPatch)))).translateX =
        9 - (5 - (zoom 1 (initState noPatch)).translateX) ∧
      (continueDrag 9 9 (beginDrag 5 5 (zoom 1 (initState noPatch)))).translateY =
        9 - (5 - (zoom 1 (initState noPatch)).translateY)) :=
  ⟨by norm_num [zoom, clampScale, jsMin, jsMax, initState, mergeOptions,
      defaultOptions, noPatch],
    C6_drag_anchor (zoom 1 (initState noPatch)) 5 5 9 9
      (by norm_num [zoom, clampScale, jsMin, jsMax, initState, mergeOptions,
        defaultOptions, noPatch])⟩

/-! ### Disabling zoom -/

theorem wheelEvent_of_disabled (dy : ℚ) (s : ModalState)
    (h : s.options.enableZoom = false) : wheelEvent dy s = s := by
  unfold wheelEvent zoom
  simp [h]

theorem wheelFold_of_disabled (ds : List ℚ) : ∀ s : ModalState,
    s.options.enableZoom = false →
    ds.foldl (fun st dy => wheelEvent dy st) s = s := by
  induction ds with
  | nil => exact fun s _ => rfl
  | cons d rest ih =>
    intro s h
    rw [List.foldl_cons, wheelEvent_of_disabled d s h, ih s h]

/-- C7: after `updateOptions({enableZoom: false})`, any sequence of
wheel events leaves the scale exactly where it was: `zoom` checks the
current option value on every call and returns immediately. -/
theorem C7_wheel_noop_after_disable (s : ModalState) (ds : List ℚ) :
    (ds.foldl (fun st dy => wheelEvent dy st)
      (updateOptions disableZoomPatch s)).scale = s.scale := by
  rw [wheelFold_of_disabled ds (updateOptions disableZoomPatch s) rfl]
  rfl

/-! ### Handlers are bound only at construction -/

theorem stepZ_frozen (e : ZEvent) (s : ModalState) (h : s.zoomBound = false) :
    (stepZ e s).zoomBound = false ∧
    (stepZ e s).scale = s.scale ∧
    (stepZ e s).translateX = s.translateX ∧
    (stepZ e s).translateY = s.translateY ∧
    (stepZ e s).isDragging = s.isDragging := by
  cases e <;>
    simp [stepZ, wheelEvent, mousedownEvent, mousemoveEvent, mouseupEvent,
      dblclickEvent, updateOptions, h]

theorem stepZFold_frozen (es : List ZEvent) : ∀ s : ModalState,
    s.zoomBound = false →
    (es.foldl (fun st e => stepZ e st) s).scale = s.scale ∧
    (es.foldl (fun st e => stepZ e st) s).translateX = s.translateX ∧
    (es.foldl (fun st e => stepZ e st) s).translateY = s.translateY ∧
    (es.foldl (fun st e => stepZ e st) s).isDragging = s.isDragging := by
  induction es with
  | nil => exact fun s _ => ⟨rfl, rfl, rfl, rfl⟩
  | cons e rest ih =>
    intro s h
    obtain ⟨hb, h1, h2, h3, h4⟩ := stepZ_frozen e s h
    obtain ⟨g1, g2, g3, g4⟩ := ih (stepZ e s) hb
    exact ⟨by rw [List.foldl_cons, g1, h1], by rw [List.foldl_cons, g2, h2],
      by rw [List.foldl_cons, g3, h3], by rw [List.foldl_cons, g4, h4]⟩

/-- C9: an instance constructed with `enableZoom: false` never gets
zoom or pan: whatever mix of `updateOptions` calls (including turning
`enableZoom` back on) and wheel / mousedown / mousemove / mouseup /
double-click events follows, `scale`, `translateX`, `translateY` and
`isDragging` keep their construction values, because the handlers were
never registered. -/
theorem C9_zoom_never_bound (p : OptionsPatch) (es : List ZEvent)
    (h : (mergeOptions defaultOptions p).enableZoom = false) :
    (es.foldl (fun st e => stepZ e st) (initState p)).scale = 1 ∧
    (es.foldl (fun st e => stepZ e st) (initState p)).translateX = 0 ∧
    (es.foldl (fun st e => stepZ e st) (initState p)).translateY = 0 ∧
    (es.foldl (fun st e => stepZ e st) (initState p)).isDragging = false :=
  stepZFold_frozen es (initState p) h

/-- Witness for C9: construct with `{enableZoom: false}`, re-enable it
via `updateOptions`, then wheel, press, move and double-click. -/
theorem C9_witness :
    (mergeOptions defaultOptions disableZoomPatch).enableZoom = false ∧
    (([ZEvent.updateOpts { enableZoom := some true }, ZEvent.wheel 5,
        ZEvent.mousedown 1 2, ZEvent.mousemove 3 4,
        ZEvent.dblclick].foldl (fun st e => stepZ e st) (initState disableZoomPatch)).scale = 1 ∧
      ([ZEvent.updateOpts { enableZoom := some true }, ZEvent.wheel 5,
        ZEvent.mousedown 1 2, ZEvent.mousemove 3 4,
        ZEvent.dblclick].foldl (fun st e => stepZ e st) (initState disableZoomPatch)).translateX = 0 ∧
      ([ZEvent.updateOpts { enableZoom := some true }, ZEvent.wheel 5,
        ZEvent.mousedown 1 2, ZEvent.mousemove 3 4,
        ZEvent.dblclick].foldl (fun st e => stepZ e st) (initState disableZoomPatch)).translateY = 0 ∧
      ([ZEvent.updateOpts { enableZoom := some true }, ZEvent.wheel 5,
        ZEvent.mousedown 1 2, ZEvent.mousemove 3 4,
        ZEvent.dblclick].foldl (fun st e => stepZ e st) (initState disableZoomPatch)).isDragging = false) :=
  ⟨rfl, C9_zoom_never_bound disableZoomPatch
    [ZEvent.updateOpts { enableZoom := some true }, ZEvent.wheel 5,
      ZEvent.mousedown 1 2, ZEvent.mousemove 3 4, ZEvent.dblclick] rfl⟩

/-! ### Timers and the lifecycle -/

/-- Is this callback the hide/restore/reset one? -/
def isHide : TimerAction → Bool
  | TimerAction.fadeIn => false
  | TimerAction.hideClose => true

/-- Does a timer list contain the hide/restore/reset callback? -/
def hasHide (l : List (ℚ × TimerAction)) : Bool :=
  l.any (fun p => isHide p.2)

theorem hasHide_insertTimer (p : ℚ × TimerAction) (l : List (ℚ × TimerAction)) :
    hasHide (insertTimer p l) = (isHide p.2 || hasHide l) := by
  induction l with
  | nil => simp [insertTimer, hasHide]
  | cons q rest ih =>
    unfold insertTimer
    split
    · simp [hasHide]
    · simp only [hasHide, List.any_cons] at ih ⊢
      rw [ih]
      cases isHide q.2 <;> cases isHide p.2 <;> simp

theorem hasHide_sortTimers (l : List (ℚ × TimerAction)) :
    hasHide (sortTimers l) = hasHide l := by
  induction l with
  | nil => rfl
  | cons p rest ih =>
    rw [sortTimers, hasHide_insertTimer, ih]
    simp [hasHide]

theorem fireAll_displayStyle (l : List (ℚ × TimerAction)) : ∀ s : ModalState,
    (fireAll l s).displayStyle = if hasHide l then "none" else s.displayStyle := by
  induction l with
  | nil => exact fun s => rfl
  | cons p rest ih =>
    intro s
    obtain ⟨tm, act⟩ := p
    have h0 : fireAll ((tm, act) :: rest) s = fireAll rest (runTimerAction act s) := rfl
    rw [h0, ih]
    cases act with
    | fadeIn =>
      simp only [runTimerAction, hasHide, List.any_cons, isHide, Bool.false_or]
    | hideClose =>
      simp only [runTimerAction, resetZoom, hasHide, List.any_cons, isHide, Bool.true_or,
        if_pos, ite_self]

theorem advanceTo_displayStyle (u : ℚ) (s : ModalState) :
    (advanceTo u s).displayStyle =
      if hasHide (s.timers.filter (fun p => decide (p.1 ≤ u))) then "none"
      else s.displayStyle := by
  unfold advanceTo
  rw [fireAll_displayStyle, hasHide_sortTimers]

theorem openModal_displayStyle (img : ImageRef) (t : ℚ) (s : ModalState) :
    (openModal img t s).displayStyle = "flex" := by
  unfold openModal
  dsimp only

theorem openModal_timers (img : ImageRef) (t : ℚ) (s : ModalState) :
    (openModal img t s).timers = s.timers ++ [(t + 10, TimerAction.fadeIn)] := by
  unfold openModal
  dsimp only
  split <;> rfl

/-- C4: from a quiescent state (no pending timers), `open` makes
`isOpen` true at once; after a later `close()` it stays true at every
time before the fade-out timer is due, and is false once the clock
passes `animationDuration` after the `close` call and the timer has
fired. -/
theorem C4_isOpen_lifecycle (s : ModalState) (img : ImageRef) (t tc u : ℚ)
    (hq : s.timers = []) :
    isOpen (openModal img t s) = true ∧
    (u < tc + s.options.animationDuration →
      isOpen (advanceTo u (closeModal tc (openModal img t s))) = true) ∧
    (tc + s.options.animationDuration ≤ u →
      isOpen (advanceTo u (closeModal tc (openModal img t s))) = false) := by
  have hopt := openModal_options img t s
  have hdisp := openModal_displayStyle img t s
  have htm : (closeModal tc (openModal img t s)).timers =
      [(t + 10, TimerAction.fadeIn),
        (tc + s.options.animationDuration, TimerAction.hideClose)] := by
    show (openModal img t s).timers ++ _ = _
    rw [openModal_timers, hq, hopt]
    rfl
  have hdisp2 : (closeModal tc (openModal img t s)).displayStyle = "flex" := hdisp
  refine ⟨by rw [isOpen, hdisp]; rfl, ?_, ?_⟩
  · intro hu
    have hnle : ¬ (tc + s.options.animationDuration ≤ u) := not_le.mpr hu
    rw [isOpen, advanceTo_displayStyle, htm]
    simp [hasHide, isHide, hnle, hdisp2]
  · intro hu
    rw [isOpen, advanceTo_displayStyle, htm]
    simp [hasHide, isHide, hu]

/-- Witness for C4: the default instance, open at time 0, close at
time 5; checked at time 400, past the 300 ms fade-out. -/
theorem C4_witness :
    (initState noPatch).timers = [] ∧
    (isOpen (openModal ⟨"a.png", some "cat", none⟩ 0 (initState noPatch)) = true ∧
      ((400:ℚ) < 5 + (initState noPatch).options.animationDuration →
        isOpen (advanceTo 400 (closeModal 5
          (openModal ⟨"a.png", some "cat", none⟩ 0 (initState noPatch)))) = true) ∧
      (5 + (initState noPatch).options.animationDuration ≤ (400:ℚ) →
        isOpen (advanceTo 400 (closeModal 5
          (openModal ⟨"a.png", some "cat", none⟩ 0 (initState noPatch)))) = false)) :=
  ⟨rfl, C4_isOpen_lifecycle (initState noPatch) ⟨"a.png", some "cat", none⟩ 0 5 400 rfl⟩

/-- C8: `close()` on an already-closed quiescent state (surface hidden,
scroll restored, transform at identity, no timers pending) leaves every
observable of the claim unchanged once the fade-out delay has elapsed
and its timer has fired. -/
theorem C8_close_when_closed_noop (s : ModalState) (t u : ℚ)
    (hd : s.displayStyle = "none") (ho : s.overflowHidden = false)
    (hs : s.scale = 1) (hx : s.translateX = 0) (hy : s.translateY = 0)
    (hq : s.timers = []) (hu : t + s.options.animationDuration ≤ u) :
    (advanceTo u (closeModal t s)).displayStyle = s.displayStyle ∧
    (advanceTo u (closeModal t s)).overflowHidden = s.overflowHidden ∧
    (advanceTo u (closeModal t s)).scale = s.scale ∧
    (advanceTo u (closeModal t s)).translateX = s.translateX ∧
    (advanceTo u (closeModal t s)).translateY = s.translateY := by
  have htm : (closeModal t s).timers =
      [(t + s.options.animationDuration, TimerAction.hideClose)] := by
    show s.timers ++ _ = _
    rw [hq]
    rfl
  unfold advanceTo
  rw [htm]
  have hnlt : ¬ (u < t + s.options.animationDuration) := not_lt.mpr hu
  have h1 : decide (t + s.options.animationDuration ≤ u) = true := decide_eq_true hu
  have h2 : decide (u < t + s.options.animationDuration) = false := decide_eq_false hnlt
  simp only [List.filter, h1, h2]
  simp [sortTimers, insertTimer, fireAll, runTimerAction, resetZoom, hd, ho, hs, hx, hy]

/-- Witness for C8: the fresh default instance is closed and quiescent;
close at time 0 and look at time 300. -/
theorem C8_witness :
    ((initState noPatch).displayStyle = "none" ∧
      (initState noPatch).overflowHidden = false ∧
      (initState noPatch).scale = 1 ∧
      (initState noPatch).translateX = 0 ∧
      (initState noPatch).translateY = 0 ∧
      (initState noPatch).timers = [] ∧
      0 + (initState noPatch).options.animationDuration ≤ (300:ℚ)) ∧
    ((advanceTo 300 (closeModal 0 (initState noPatch))).displayStyle =
        (initState noPatch).displayStyle ∧
      (advanceTo 300 (closeModal 0 (initState noPatch))).overflowHidden =
        (initState noPatch).overflowHidden ∧
      (advanceTo 300 (closeModal 0 (initState noPatch))).scale =
        (initState noPatch).scale ∧
      (advanceTo 300 (closeModal 0 (initState noPatch))).translateX =
        (initState noPatch).translateX ∧
      (advanceTo 300 (closeModal 0 (initState noPatch))).translateY =
        (initState noPatch).translateY) :=
  ⟨⟨rfl, rfl, rfl, rfl, rfl, rfl,
      by norm_num [initState, mergeOptions, defaultOptions, noPatch]⟩,
    C8_close_when_closed_noop (initState noPatch) 0 300 rfl rfl rfl rfl rfl rfl
      (by norm_num [initState, mergeOptions, defaultOptions, noPatch])⟩

end SimpleImageModal
